import Mathlib

/-!
Verification of the FarsiTranscriberServer pipeline orchestrator.

The repository contains an Express server (`src/server.js`) whose
`POST /api/transcribe` handler drives the pipeline
ingest -> optional ffmpeg optimization -> Whisper transcription ->
optional GPT refinement, streaming progress events over SSE, plus two
near-duplicate variants (`src/unnamed/part_004`, `src/unnamed/part_006`)
and helper modules (`src/utils/audioProcessor.js`,
`src/unnamed/part_003`).

This file gives a shallow embedding of those handlers.  External calls
(ffmpeg, the Whisper HTTP call, the chat-completion HTTP call, file
copies) are modelled by an environment record holding each call's
outcome; the handler becomes a pure function from the environment to the
list of SSE messages it writes.  Filesystem cleanup is modelled as an
explicit state transformer over boolean / list-of-path states.
-/

deriving instance DecidableEq for Except

namespace FarsiTranscriber

/-- One SSE `data:` message as written by the handlers.  The fields mirror
the JSON objects the source serializes: `status` and an optional
`progress` (the part_006 catch branch writes no progress field), an
optional `error` string, the `transcription` field of the server.js final
message, and the `result` object of the part_006 final message
(`resultImproved = some none` encodes `improved: null`). -/
structure StageEvent where
  status : String
  progress : Option Int
  error : Option String
  transcription : Option String
  resultOriginal : Option String
  resultImproved : Option (Option String)
deriving DecidableEq

/-- A plain progress message: `sendStatus(status, progress)` in the source. -/
def statusEv (st : String) (p : Int) : StageEvent :=
  ⟨st, some p, none, none, none, none⟩

/-- server.js error message: status Error, progress 0, error detail. -/
def errorEv (msg : String) : StageEvent :=
  ⟨"Error", some 0, some msg, none, none, none⟩

/-- server.js final success message: status Complete, progress 100,
`transcription` payload. -/
def finalEv (t : String) : StageEvent :=
  ⟨"Complete", some 100, none, some t, none, none⟩

/-- part_006 catch-branch error message: status Error, no progress field. -/
def p6ErrorEv (msg : String) : StageEvent :=
  ⟨"Error", none, some msg, none, none, none⟩

/-- part_006 final success message carrying the `result` object. -/
def p6FinalEv (orig : String) (impr : Option String) : StageEvent :=
  ⟨"Complete", some 100, none, none, some orig, some impr⟩

/-- A terminal event is one whose status is `Complete` or `Error`
(spec section 3, StageEvent invariant). -/
def isTerminal (e : StageEvent) : Bool :=
  e.status == "Complete" || e.status == "Error"

/-- Number of terminal events in an emitted sequence. -/
def terminalCount (evs : List StageEvent) : Nat :=
  (evs.filter isTerminal).length

/-- Whether the last emitted event is terminal (false on the empty trace). -/
def lastIsTerminal (evs : List StageEvent) : Bool :=
  match evs.getLast? with
  | some e => isTerminal e
  | none => false

/-- The progress values actually carried by a trace, in emission order. -/
def progressList (evs : List StageEvent) : List Int :=
  evs.filterMap (·.progress)

/-- Number of events whose status is exactly `Transcribing`. -/
def countTranscribing (evs : List StageEvent) : Nat :=
  (evs.filter (fun e => e.status == "Transcribing")).length

namespace Server

/-- Environment of one `POST /api/transcribe` run of `src/server.js`:
the outcomes of every external interaction the handler awaits.
`fetchResult` models the Whisper call: a rejected promise carries an
error message, a settled response carries `(response.ok, body text)`
where the body is the transcript when ok and the error payload
otherwise. `ffmpegResult` / `copyResult` are the stage-2 outcomes, and
`finalExists` is the answer of `fs.existsSync(finalPath)`. -/
structure Env where
  hasFile : Bool
  optimizeAudio : Bool
  improveTranscription : Bool
  ffmpegResult : Except String Unit
  copyResult : Except String Unit
  finalExists : Bool
  fetchResult : Except String (Bool × String)
  refineResult : Except String String
deriving DecidableEq

/-- `improveTranscription` of `src/server.js` (lines 246-265): awaits the
chat-completion SDK call; on any thrown error it logs and returns the
input transcript unchanged, so it is total and never throws. -/
def improveTranscription (refine : Except String String) (t : String) : String :=
  match refine with
  | .ok improved => improved
  | .error _ => t

/-- Stage 2 of the server.js handler (lines 136-166): with
`optimizeAudio` the handler emits `Optimizing 40` and awaits ffmpeg;
without it, it first awaits `copyFile` and only then emits
`Transcribing 40` (a copy failure throws before any event). Returns the
events emitted by this block and the block's outcome. -/
def stage2 (env : Env) : List StageEvent × Except String Unit :=
  if env.optimizeAudio then
    ([statusEv "Optimizing" 40], env.ffmpegResult)
  else
    match env.copyResult with
    | .ok _ => ([statusEv "Transcribing" 40], .ok ())
    | .error e => ([], .error e)

/-- Whether the stage-2 block of server.js succeeded. -/
def stage2ok (env : Env) : Bool :=
  match (stage2 env).2 with
  | .ok _ => true
  | .error _ => false

/-- The `try` block of the server.js handler (lines 114-232): the list of
SSE messages it writes, and `some msg` when it throws `msg`.  Mirrors the
source control flow: missing file throws before any event; `Uploading 20`
is emitted first; stage 2 runs; `existsSync` is checked; the Whisper
fetch either rejects, returns a non-ok status (which writes an in-branch
Error message and then throws), or yields the transcript; the refinement
branch emits `Improving transcription 80`, rewrites the transcript via
`improveTranscription`, and both branches emit `Complete 100` followed by
the final result message. -/
def tryBody (env : Env) : List StageEvent × Option String :=
  if env.hasFile = false then ([], some "No file uploaded")
  else
    let s2 := stage2 env
    let evs := statusEv "Uploading" 20 :: s2.1
    match s2.2 with
    | .error e => (evs, some e)
    | .ok _ =>
      if env.finalExists = false then (evs, some "Audio file not found")
      else
        match env.fetchResult with
        | .error e => (evs, some e)
        | .ok (ok, body) =>
          if ok = false then
            (evs ++ [errorEv body], some ("OpenAI API error: " ++ body))
          else
            if env.improveTranscription then
              let t := improveTranscription env.refineResult body
              (evs ++ [statusEv "Improving transcription" 80,
                       statusEv "Complete" 100, finalEv t], none)
            else
              (evs ++ [statusEv "Complete" 100, finalEv body], none)

/-- The full emitted SSE trace of one server.js run: the try block's
messages, plus (when the try block threw) the catch branch's Error
message with `error.message || "An unexpected error occurred"`
(lines 233-240). -/
def run (env : Env) : List StageEvent :=
  match tryBody env with
  | (evs, none) => evs
  | (evs, some msg) =>
      evs ++ [errorEv (if msg = "" then "An unexpected error occurred" else msg)]

/-- The Whisper fetch of server.js is performed exactly when the file was
uploaded, the stage-2 block succeeded and `existsSync(finalPath)` held. -/
def reachesTranscription (env : Env) : Bool :=
  env.hasFile && stage2ok env && env.finalExists

/-- State seen by the per-run `cleanup` closure of `src/server.js`
(lines 71-94): whether `currentProcess` is non-null, whether that
subprocess is still alive, and whether the uploaded and optimized files
exist on disk. -/
structure CState where
  hasProc : Bool
  procAlive : Bool
  uploadExists : Bool
  optimizedExists : Bool
deriving DecidableEq, Fintype

/-- Failure modes of the external release operations inside `cleanup`:
`kill()` throwing, and each `unlinkSync` throwing.  A failed unlink
leaves the file on disk. -/
structure CEnv where
  killFails : Bool
  unlinkUploadFails : Bool
  unlinkOptFails : Bool
deriving DecidableEq, Fintype

/-- The per-run `cleanup` closure of `src/server.js` (lines 71-94).
The subprocess `kill()` sits in its own inner `try`, so a kill failure
is logged and execution continues.  Both `unlinkSync` calls are guarded
by `existsSync` but share the single outer `try`: an exception thrown
while unlinking the uploaded file jumps to the outer catch and skips the
optimized-file unlink.  The outer catch swallows every exception, so the
call never propagates an error to its caller. -/
def cleanup (env : CEnv) (s : CState) : CState :=
  let s1 := if s.hasProc && !env.killFails then { s with procAlive := false } else s
  if s1.uploadExists then
    if env.unlinkUploadFails then s1
    else
      let s2 := { s1 with uploadExists := false }
      if s2.optimizedExists && !env.unlinkOptFails then
        { s2 with optimizedExists := false }
      else s2
  else
    if s1.optimizedExists && !env.unlinkOptFails then
      { s1 with optimizedExists := false }
    else s1

/-- Events written before the ffmpeg await in an optimize-enabled run of
server.js: the handler emits `Uploading 20` and `Optimizing 40` and then
suspends on the ffmpeg promise (lines 130-157). -/
def preCancelEvents : List StageEvent :=
  [statusEv "Uploading" 20, statusEv "Optimizing" 40]

/-- Messages the handler still writes to the response after a client
disconnect that fires while ffmpeg is running: the `close` handler runs
`cleanup` (killing the subprocess, which makes the ffmpeg promise
reject), and the handler body resumes past the events already written
before the disconnect.  Computed as the suffix of the full trace beyond
`preCancelEvents`. -/
def postCancelEvents (env : Env) : List StageEvent :=
  (run env).drop preCancelEvents.length

end Server

namespace Part006

/-- Environment of one `POST /api/transcribe` run of
`src/unnamed/part_006`: the request options, the outcome of the awaited
`optimizeAudio(original, optimized)` call, the outcome of
`transcribeAudio` (which rethrows every failure), and the outcome of the
refinement HTTP call, modelled as a rejection or `(response.ok, body)`
where the body is the returned message content when ok. -/
structure Env where
  optimizeAudio : Bool
  improveTranscription : Bool
  optimizeResult : Except String Unit
  transcribeResult : Except String String
  refineHttp : Except String (Bool × String)
deriving DecidableEq

/-- `improveTranscription` of `src/unnamed/part_006` (lines 273-315, and
identically `src/unnamed/part_004` lines 342-408): a rejected fetch or a
non-ok response status falls into the catch, which logs and returns the
input text unchanged; an ok response yields the returned content.  Total,
never throws. -/
def improveTranscription (r : Except String (Bool × String)) (text : String) : String :=
  match r with
  | .error _ => text
  | .ok (ok, content) => if ok then content else text

/-- Whether the part_006 refinement backend call actually succeeded
(responded with an ok status). -/
def refinementSucceeded (env : Env) : Bool :=
  match env.refineHttp with
  | .ok (ok, _) => ok
  | .error _ => false

/-- The emitted SSE trace of one part_006 run (lines 155-240).  With
optimization the handler emits `Optimizing audio... 0`, awaits
`optimizeAudio` (a failure throws to the catch, which writes an Error
message without a progress field), then `Audio optimization complete 20`.
It then emits `Transcribing audio... 30`, awaits `transcribeAudio`
(failure throws to the catch), emits `Transcription complete 80`, and,
when `improveTranscription` was requested, emits
`Improving transcription... 90` and computes `improvedText` via
`improveTranscription` — which never throws, so the handler's inner
catch (which would reset `improvedText` to null) is unreachable.  The
final message carries `result = (original, improved)` where `improved`
is `improvedText` when requested and null otherwise. -/
def run (env : Env) : List StageEvent :=
  let optPart : List StageEvent × Except String Unit :=
    if env.optimizeAudio then
      match env.optimizeResult with
      | .error e => ([statusEv "Optimizing audio..." 0], .error e)
      | .ok _ => ([statusEv "Optimizing audio..." 0,
                   statusEv "Audio optimization complete" 20], .ok ())
    else ([], .ok ())
  match optPart.2 with
  | .error e => optPart.1 ++ [p6ErrorEv e]
  | .ok _ =>
    let evs := optPart.1 ++ [statusEv "Transcribing audio..." 30]
    match env.transcribeResult with
    | .error e => evs ++ [p6ErrorEv e]
    | .ok t =>
      let evs := evs ++ [statusEv "Transcription complete" 80]
      if env.improveTranscription then
        evs ++ [statusEv "Improving transcription..." 90,
                p6FinalEv t (some (improveTranscription env.refineHttp t))]
      else
        evs ++ [p6FinalEv t none]

/-- The `result` payload of the final message of a trace, when the trace
ends in a Complete message carrying one. -/
def completePayload (evs : List StageEvent) : Option (String × Option String) :=
  match evs.getLast? with
  | some ev =>
      if ev.status == "Complete" then
        match ev.resultOriginal, ev.resultImproved with
        | some o, some i => some (o, i)
        | _, _ => none
      else none
  | none => none

end Part006

namespace Part004

/-- Process-wide mutable state of `src/unnamed/part_004`: the files
currently present in the shared `uploads/` and `optimized/` directories
(owned by whichever concurrent runs created them) and the identifiers of
the ffmpeg subprocesses in the global `activeProcesses` set. -/
structure GState where
  uploadFiles : List String
  optFiles : List String
  procs : List Nat
deriving DecidableEq

/-- Removal of one entry from a listing: `fs.unlinkSync` of one path, or
`activeProcesses.delete` of one handle. -/
def removeFile {α : Type} [DecidableEq α] (dir : List α) (f : α) : List α :=
  dir.filter (fun g => g ≠ f)

/-- The `for (const file of files) unlinkSync(file)` loop of the global
`cleanup` of part_004 (lines 103-116), and likewise its
kill-every-active-process loop (lines 94-101): iterates over the snapshot
of the listing and removes every entry found, regardless of which run
created it. -/
def sweepDir {α : Type} [DecidableEq α] (dir : List α) : List α :=
  dir.foldl removeFile dir

/-- The global `cleanup()` of `src/unnamed/part_004` (lines 90-129),
invoked from the global error handler, SIGTERM/SIGINT and the server
error handler: kills every process in the global `activeProcesses` set,
then sweeps the entire shared `uploads/` and `optimized/` directories. -/
def globalCleanup (s : GState) : GState :=
  { uploadFiles := sweepDir s.uploadFiles,
    optFiles := sweepDir s.optFiles,
    procs := sweepDir s.procs }

/-- The per-run file cleanup of the server.js handler projected onto the
shared directories: it unlinks only the run's own uploaded file `p` and
the derived optimized path `basename(p) + ".mp3"` (lines 82-90). -/
def handlerCleanup (p : String) (s : GState) : GState :=
  { s with uploadFiles := removeFile s.uploadFiles p,
           optFiles := removeFile s.optFiles (p ++ ".mp3") }

end Part004

namespace AudioProcessor

/-- Filesystem state around one `optimizeAudioForWhisper` call of
`src/utils/audioProcessor.js`: whether the source input file and the
re-encoded output file exist. -/
structure FState where
  inputExists : Bool
  outputExists : Bool
deriving DecidableEq, Fintype

/-- Outcomes of the two external operations inside
`optimizeAudioForWhisper`: the ffmpeg re-encode and the
`fs.unlink(inputPath)` performed in the `end` handler. -/
structure FEnv where
  ffmpegOk : Bool
  unlinkOk : Bool
deriving DecidableEq, Fintype

/-- `optimizeAudioForWhisper` of `src/utils/audioProcessor.js`
(lines 16-42): on successful conversion it produces the output file and
then deletes the original input file; if that delete fails it logs a
warning and still resolves.  On an ffmpeg error it rejects.  The boolean
result records whether the promise resolved. -/
def optimizeAudioForWhisper (env : FEnv) (s : FState) : FState × Bool :=
  if env.ffmpegOk then
    let s1 := { s with outputExists := true }
    if env.unlinkOk then ({ s1 with inputExists := false }, true)
    else (s1, true)
  else (s, false)

end AudioProcessor

/-! Concrete runs used by the counterexamples and witnesses below. -/

/-- A nominal successful server.js run: file uploaded, no optimization,
no refinement, copy and Whisper call succeed with transcript `hello`. -/
def envC1 : Server.Env :=
  ⟨true, false, false, .ok (), .ok (), true, .ok (true, "hello"), .ok "x"⟩

/-- A server.js run whose Whisper call returns a non-ok response carrying
the body `rate limit exceeded`. -/
def envC2 : Server.Env :=
  ⟨true, false, false, .ok (), .ok (), true, .ok (false, "rate limit exceeded"), .ok "x"⟩

/-- A successful non-optimized server.js run with refinement enabled and
a succeeding refinement call. -/
def envC2s : Server.Env :=
  ⟨true, false, true, .ok (), .ok (), true, .ok (true, "hello"), .ok "better"⟩

/-- A server.js run with refinement enabled whose refinement backend call
fails while every earlier stage succeeds. -/
def envC3 : Server.Env :=
  ⟨true, false, true, .ok (), .ok (), true, .ok (true, "hello"), .error "backend down"⟩

/-- A part_006 run with refinement enabled whose transcription backend
returns the empty transcript and whose refinement call returns a non-ok
status. -/
def envC4 : Part006.Env :=
  ⟨false, true, .ok (), .ok "", .ok (false, "bad gateway")⟩

/-- A part_006 run with refinement enabled whose refinement fetch rejects
while transcription succeeds with transcript `hello`. -/
def envC4w : Part006.Env :=
  ⟨false, true, .ok (), .ok "hello", .error "down"⟩

/-- A server.js run with audio optimization enabled in which every stage
up to and including the Whisper call succeeds. -/
def envC5 : Server.Env :=
  ⟨true, true, false, .ok (), .ok (), true, .ok (true, "hello"), .ok "x"⟩

/-- A server.js run without audio optimization in which every stage up to
and including the Whisper call succeeds. -/
def envC5w : Server.Env :=
  ⟨true, false, false, .ok (), .ok (), true, .ok (true, "hello"), .ok "x"⟩

/-- A server.js run with optimization enabled whose ffmpeg subprocess is
killed by the disconnect handler, making its promise reject. -/
def envC7 : Server.Env :=
  ⟨true, true, false, .error "ffmpeg was killed with signal SIGKILL",
   .ok (), true, .ok (true, "hello"), .ok "x"⟩

/-- Shared-directory state holding the uploaded files of two concurrent
part_004 runs. -/
def gsC9 : Part004.GState :=
  ⟨["run1-upload", "run2-upload"], ["run1-upload.mp3", "run2-upload.mp3"], [1, 2]⟩

/-! Claim C1. -/

/-- Claim C1 counterexample: on the nominal successful run `envC1` the
server.js handler writes the `Complete 100` checkpoint and then the final
result message, both with status `Complete`, so the trace contains two
terminal events, refuting "exactly one terminal event". -/
theorem c1_counterexample :
    terminalCount (Server.run envC1) = 2 ∧
    ¬ terminalCount (Server.run envC1) = 1 := by decide

/-- Claim C1 (amended): every server.js run emits at least one terminal
event and the last emitted event is terminal; the count of terminal
events can however exceed one (on success the `Complete` status is
emitted twice — the 100 percent checkpoint and the result message — and
on a non-ok transcription response the `Error` status is emitted twice:
once in the response branch and once in the catch). -/
theorem c1_amended (env : Server.Env) :
    1 ≤ terminalCount (Server.run env) ∧ lastIsTerminal (Server.run env) = true := by
  obtain ⟨hf, oa, imp, ff, cp, fe, ft, rf⟩ := env
  cases hf <;> cases oa <;> cases imp <;> cases fe <;>
    rcases ff with e | u <;> rcases cp with e2 | u2 <;>
    rcases ft with e3 | ⟨_ | _, body⟩ <;>
  simp [Server.run, Server.tryBody, Server.stage2, Server.improveTranscription,
        terminalCount, lastIsTerminal, isTerminal, statusEv, errorEv, finalEv]

/-! Claim C2. -/

/-- Claim C2 counterexample: on `envC2` the Whisper call returns a non-ok
response, and the handler writes two Error messages with progress 0 after
`Uploading 20` and `Transcribing 40`, so the progress values 20, 40, 0, 0
are not monotonically non-decreasing. -/
theorem c2_counterexample :
    progressList (Server.run envC2) = [20, 40, 0, 0] ∧
    ¬ List.Chain' (fun a b => a ≤ b) (progressList (Server.run envC2)) := by
  refine ⟨by decide, ?_⟩
  rw [show progressList (Server.run envC2) = [20, 40, 0, 0] by decide]
  simp [List.chain'_cons]

/-- Claim C2 (amended): every progress value a server.js run emits is an
integer between 0 and 100; on runs whose try block succeeds the progress
sequence is monotonically non-decreasing and ends at 100, but on error
runs the terminal Error messages carry progress 0, which can be lower
than earlier checkpoints. -/
theorem c2_amended :
    (∀ env : Server.Env, ∀ p ∈ progressList (Server.run env), 0 ≤ p ∧ p ≤ 100) ∧
    (∀ env : Server.Env, (Server.tryBody env).2 = none →
      List.Chain' (fun a b => a ≤ b) (progressList (Server.run env)) ∧
      (progressList (Server.run env)).getLast? = some 100) := by
  constructor
  · intro env
    obtain ⟨hf, oa, imp, ff, cp, fe, ft, rf⟩ := env
    cases hf <;> cases oa <;> cases imp <;> cases fe <;>
      rcases ff with e | u <;> rcases cp with e2 | u2 <;>
      rcases ft with e3 | ⟨_ | _, body⟩ <;>
    simp [Server.run, Server.tryBody, Server.stage2, Server.improveTranscription,
          progressList, statusEv, errorEv, finalEv]
  · intro env h
    obtain ⟨hf, oa, imp, ff, cp, fe, ft, rf⟩ := env
    cases hf <;> cases oa <;> cases imp <;> cases fe <;>
      rcases ff with e | u <;> rcases cp with e2 | u2 <;>
      rcases ft with e3 | ⟨_ | _, body⟩ <;>
    simp_all [Server.run, Server.tryBody, Server.stage2, Server.improveTranscription,
              progressList, statusEv, errorEv, finalEv]

/-- Claim C2 witness: the amended statement evaluated on the successful
refinement-enabled run `envC2s`. -/
theorem c2_amended_witness :
    (∀ p ∈ progressList (Server.run envC2s), 0 ≤ p ∧ p ≤ 100) ∧
    List.Chain' (fun a b => a ≤ b) (progressList (Server.run envC2s)) ∧
    (progressList (Server.run envC2s)).getLast? = some 100 :=
  ⟨c2_amended.1 envC2s, c2_amended.2 envC2s (by decide)⟩

/-! Claim C3. -/

/-- Claim C3: in a server.js run with `improveTranscription=true` whose
refinement backend call fails, but whose earlier stages all succeed with
transcript `t`, the run still ends with the Complete result message
carrying the original transcript `t`, and no Error message is ever
written: refinement failure is absorbed inside `improveTranscription`. -/
theorem c3_refinement_nonfatal (env : Server.Env) (e t : String)
    (himp : env.improveTranscription = true)
    (href : env.refineResult = .error e)
    (hfile : env.hasFile = true)
    (hstage2 : Server.stage2ok env = true)
    (hex : env.finalExists = true)
    (hfetch : env.fetchResult = .ok (true, t)) :
    (Server.run env).getLast? = some (finalEv t) ∧
    ∀ ev ∈ Server.run env, ev.status ≠ "Error" := by
  obtain ⟨hf, oa, imp, ff, cp, fe, ft, rf⟩ := env
  simp only at himp href hfile hex hfetch
  subst himp href hfile hex hfetch
  cases oa <;> rcases ff with e1 | u1 <;> rcases cp with e2 | u2 <;>
    simp_all [Server.run, Server.tryBody, Server.stage2, Server.stage2ok,
              Server.improveTranscription, statusEv, errorEv, finalEv]

/-- Claim C3 witness: the statement evaluated on `envC3`, whose
refinement call fails with message `backend down` after a successful
transcription of `hello`. -/
theorem c3_witness :
    (Server.run envC3).getLast? = some (finalEv "hello") ∧
    ∀ ev ∈ Server.run envC3, ev.status ≠ "Error" :=
  c3_refinement_nonfatal envC3 "backend down" "hello" rfl rfl rfl (by decide) rfl rfl

/-! Claim C4. -/

/-- Claim C4 counterexample: on `envC4` the part_006 run completes with
`result = ("", some "")`: the `original` field is the empty string (the
backend transcript is passed through unchecked), and `improved` is
populated with the original text even though the refinement call returned
a non-ok status — `improveTranscription` swallows its own failure and
returns the input, so the handler's null-on-failure branch never runs. -/
theorem c4_counterexample :
    ¬ (∀ p : String × Option String,
        Part006.completePayload (Part006.run envC4) = some p →
          p.1 ≠ "" ∧ (p.2 ≠ none ↔ Part006.refinementSucceeded envC4 = true)) := by
  intro h
  have h2 := h ("", some "") (by decide)
  exact h2.1 rfl

/-- Claim C4 (amended): when a part_006 run emits its Complete result
message, `original` is exactly the transcript returned by the
transcription backend (so it is non-empty exactly when that transcript
is), and `improved` is populated if and only if `improveTranscription`
was requested; when refinement was requested but the backend call failed,
`improved` is populated with the original text rather than left absent. -/
theorem c4_amended (env : Part006.Env) (o : String) (i : Option String)
    (h : Part006.completePayload (Part006.run env) = some (o, i)) :
    env.transcribeResult = .ok o ∧
    (i ≠ none ↔ env.improveTranscription = true) ∧
    (env.improveTranscription = true → Part006.refinementSucceeded env = false →
      i = some o) := by
  obtain ⟨oa, imp, optr, tr, rh⟩ := env
  cases oa <;> cases imp <;> rcases optr with e1 | u1 <;> rcases tr with e2 | t <;>
    rcases rh with e3 | ⟨_ | _, c⟩ <;>
  simp_all [Part006.run, Part006.completePayload, Part006.refinementSucceeded,
            Part006.improveTranscription, statusEv, p6ErrorEv, p6FinalEv]
  all_goals obtain ⟨rfl, rfl⟩ := h
  all_goals simp

/-- Claim C4 witness: the amended statement evaluated on `envC4w`, whose
refinement fetch rejects after a successful transcription of `hello`. -/
theorem c4_witness :
    envC4w.transcribeResult = .ok "hello" ∧
    ((some "hello" : Option String) ≠ none ↔ envC4w.improveTranscription = true) ∧
    (envC4w.improveTranscription = true →
      Part006.refinementSucceeded envC4w = false →
      (some "hello" : Option String) = some "hello") :=
  c4_amended envC4w "hello" (some "hello") (by decide)

/-! Claim C5. -/

/-- Claim C5 counterexample: the run `envC5` has audio optimization
enabled and reaches the Whisper call, yet its trace contains no
`Transcribing` event at all — the optimize branch of server.js goes from
`Optimizing 40` straight to the backend call. -/
theorem c5_counterexample :
    Server.reachesTranscription envC5 = true ∧
    countTranscribing (Server.run envC5) = 0 := by decide

/-- Claim C5 (amended): a server.js run that reaches the Whisper call
emits exactly one `Transcribing` event when `optimizeAudio` is false, and
none when it is true; every such event lies in the prefix emitted before
the backend call (`Uploading` followed by the stage-2 events). -/
theorem c5_amended (env : Server.Env)
    (h : Server.reachesTranscription env = true) :
    countTranscribing (Server.run env) = (if env.optimizeAudio then 0 else 1) ∧
    countTranscribing (statusEv "Uploading" 20 :: (Server.stage2 env).1) =
      (if env.optimizeAudio then 0 else 1) := by
  obtain ⟨hf, oa, imp, ff, cp, fe, ft, rf⟩ := env
  cases hf <;> cases oa <;> cases imp <;> cases fe <;>
    rcases ff with e | u <;> rcases cp with e2 | u2 <;>
    rcases ft with e3 | ⟨_ | _, body⟩ <;>
  simp_all [Server.run, Server.tryBody, Server.stage2, Server.stage2ok,
            Server.reachesTranscription, Server.improveTranscription,
            countTranscribing, statusEv, errorEv, finalEv]

/-- Claim C5 witness: the amended statement evaluated on the
non-optimized successful run `envC5w`, which emits exactly one
`Transcribing` event before the backend call. -/
theorem c5_witness :
    countTranscribing (Server.run envC5w) = (if envC5w.optimizeAudio then 0 else 1) ∧
    countTranscribing (statusEv "Uploading" 20 :: (Server.stage2 envC5w).1) =
      (if envC5w.optimizeAudio then 0 else 1) :=
  c5_amended envC5w (by decide)

/-! Claim C6. -/

/-- Claim C6 counterexample: with both files present and subprocess
absent, if unlinking the uploaded file throws (while unlinking the
optimized file would succeed), `cleanup` releases nothing: the exception
jumps to the single outer catch and the optimized-file release is
skipped, so an individual release failure does block the remaining
releases. -/
theorem c6_counterexample :
    Server.cleanup ⟨false, true, false⟩ ⟨false, false, true, true⟩ =
      ⟨false, false, true, true⟩ ∧
    (⟨false, true, false⟩ : Server.CEnv).unlinkOptFails = false := by decide

/-- Claim C6 (amended): the per-run `cleanup` of server.js is idempotent
and never propagates an exception; a subprocess-kill failure is confined
to its inner catch and does not prevent either file from being released;
but a failure unlinking the uploaded file aborts the shared try block,
leaving the optimized file unreleased (only the subprocess kill, already
performed, survives such a failure). -/
theorem c6_amended :
    (∀ (env : Server.CEnv) (s : Server.CState),
      Server.cleanup env (Server.cleanup env s) = Server.cleanup env s) ∧
    (∀ (env : Server.CEnv) (s : Server.CState),
      env.unlinkUploadFails = false → env.unlinkOptFails = false →
        (Server.cleanup env s).uploadExists = false ∧
        (Server.cleanup env s).optimizedExists = false) ∧
    (∀ (env : Server.CEnv) (s : Server.CState),
      env.unlinkUploadFails = true → s.uploadExists = true →
        (Server.cleanup env s).uploadExists = true ∧
        (Server.cleanup env s).optimizedExists = s.optimizedExists) := by decide

/-- Claim C6 witness: the amended statement evaluated on concrete
environments: a failing kill with succeeding unlinks, and a failing
upload unlink with both files present. -/
theorem c6_witness :
    Server.cleanup ⟨true, false, false⟩
        (Server.cleanup ⟨true, false, false⟩ ⟨true, true, true, true⟩) =
      Server.cleanup ⟨true, false, false⟩ ⟨true, true, true, true⟩ ∧
    (Server.cleanup ⟨true, false, false⟩ ⟨true, true, true, true⟩).uploadExists = false ∧
    (Server.cleanup ⟨false, true, false⟩ ⟨true, true, true, true⟩).optimizedExists =
      (⟨true, true, true, true⟩ : Server.CState).optimizedExists :=
  ⟨c6_amended.1 ⟨true, false, false⟩ ⟨true, true, true, true⟩,
   (c6_amended.2.1 ⟨true, false, false⟩ ⟨true, true, true, true⟩ rfl rfl).1,
   (c6_amended.2.2 ⟨false, true, false⟩ ⟨true, true, true, true⟩ rfl rfl).2⟩

/-! Claim C7. -/

/-- Claim C7 counterexample: on `envC7` — optimization enabled, client
disconnect mid-ffmpeg, so the killed subprocess makes the ffmpeg promise
reject — the full trace is the two pre-disconnect events followed by one
more Error message: the catch branch still writes an event to the closed
channel, refuting "emits no further events". -/
theorem c7_counterexample :
    Server.run envC7 =
      Server.preCancelEvents ++ [errorEv "ffmpeg was killed with signal SIGKILL"] ∧
    ¬ Server.postCancelEvents envC7 = [] := by decide

/-- Claim C7 (amended): when the client disconnect fires while the
ffmpeg subprocess of an optimize-enabled run is in flight, the `close`
handler's `cleanup` (whose release operations all succeed) terminates the
subprocess and removes both the uploaded file and any optimized output;
but the handler body then resumes with the rejected ffmpeg promise and
its catch branch still writes exactly one further Error message to the
already-closed channel. -/
theorem c7_amended (env : Server.Env) (s : Server.CState) (m : String)
    (h1 : env.hasFile = true) (h2 : env.optimizeAudio = true)
    (h3 : env.ffmpegResult = .error m) (hm : ¬ m = "")
    (hs : s.hasProc = true) :
    (Server.cleanup ⟨false, false, false⟩ s).procAlive = false ∧
    (Server.cleanup ⟨false, false, false⟩ s).uploadExists = false ∧
    (Server.cleanup ⟨false, false, false⟩ s).optimizedExists = false ∧
    Server.postCancelEvents env = [errorEv m] := by
  obtain ⟨hf, oa, imp, ff, cp, fe, ft, rf⟩ := env
  obtain ⟨hp, pa, ue, oe⟩ := s
  simp only at h1 h2 h3 hs
  subst h1 h2 h3 hs
  refine ⟨?_, ?_, ?_, ?_⟩ <;>
    first
      | (cases ue <;> cases oe <;> simp [Server.cleanup])
      | simp [Server.postCancelEvents, Server.preCancelEvents, Server.run,
              Server.tryBody, Server.stage2, statusEv, errorEv, hm]

/-- Claim C7 witness: the amended statement evaluated on `envC7` and a
state with the subprocess and both files present. -/
theorem c7_witness :
    (Server.cleanup ⟨false, false, false⟩ ⟨true, true, true, true⟩).procAlive = false ∧
    (Server.cleanup ⟨false, false, false⟩ ⟨true, true, true, true⟩).uploadExists = false ∧
    (Server.cleanup ⟨false, false, false⟩ ⟨true, true, true, true⟩).optimizedExists = false ∧
    Server.postCancelEvents envC7 = [errorEv "ffmpeg was killed with signal SIGKILL"] :=
  c7_amended envC7 ⟨true, true, true, true⟩ "ffmpeg was killed with signal SIGKILL"
    rfl rfl rfl (by decide) rfl

/-! Claim C8. -/

/-- Claim C8 counterexample: a successful `optimizeAudioForWhisper` call
(ffmpeg and unlink both succeed) resolves — so the surrounding run
continues towards transcription — while the source input file no longer
exists: the optimizer deletes the original in place before the run
finalizes. -/
theorem c8_counterexample :
    (AudioProcessor.optimizeAudioForWhisper ⟨true, true⟩ ⟨true, false⟩).2 = true ∧
    (AudioProcessor.optimizeAudioForWhisper ⟨true, true⟩ ⟨true, false⟩).1.inputExists
      = false := by decide

/-- Claim C8 (amended): `optimizeAudioForWhisper` never mutates the
source file, but it deletes it immediately after a successful conversion,
mid-run; the source survives the call exactly when the conversion failed
or the delete itself failed (which is only logged as a warning). -/
theorem c8_amended :
    ∀ (env : AudioProcessor.FEnv) (s : AudioProcessor.FState),
      (AudioProcessor.optimizeAudioForWhisper env s).1.inputExists =
        (s.inputExists && !(env.ffmpegOk && env.unlinkOk)) := by decide

/-! Claim C9. -/

/-- Anything left by the part_004 removal loop was already in the
accumulator it started from. -/
theorem mem_foldl_removeFile {α : Type} [DecidableEq α] {q : α} :
    ∀ (l acc : List α), q ∈ List.foldl Part004.removeFile acc l → q ∈ acc := by
  intro l
  induction l with
  | nil => intro acc h; simpa using h
  | cons f t ih =>
      intro acc h
      have h2 := ih (Part004.removeFile acc f) h
      simp only [Part004.removeFile, List.mem_filter] at h2
      exact h2.1

/-- Every entry of the iterated snapshot is removed by the part_004
removal loop. -/
theorem not_mem_foldl_removeFile {α : Type} [DecidableEq α] {q : α} :
    ∀ (l acc : List α), q ∈ l → q ∉ List.foldl Part004.removeFile acc l := by
  intro l
  induction l with
  | nil => intro acc h; simp at h
  | cons f t ih =>
      intro acc h hmem
      rcases List.mem_cons.mp h with rfl | hq
      · rcases Decidable.em (q ∈ t) with ht | ht
        · exact ih (Part004.removeFile acc q) ht hmem
        · have h2 := mem_foldl_removeFile t (Part004.removeFile acc q) hmem
          simp [Part004.removeFile, List.mem_filter] at h2
      · exact ih (Part004.removeFile acc f) hq hmem

/-- The part_004 sweep empties whatever listing it is run on. -/
theorem sweepDir_eq_nil {α : Type} [DecidableEq α] (l : List α) :
    Part004.sweepDir l = [] := by
  rw [List.eq_nil_iff_forall_not_mem]
  intro q hq
  exact not_mem_foldl_removeFile l l
    (mem_foldl_removeFile l l hq) hq

/-- Claim C9 counterexample: on a shared-directory state holding the
files and subprocesses of two concurrent runs, the part_004 global
`cleanup()` — reachable from the global error handler triggered by a
single run's failure — removes both runs' uploaded and optimized files
and kills both runs' subprocesses: a process-wide sweep over shared
directories that releases resources it does not own. -/
theorem c9_counterexample :
    "run2-upload" ∈ gsC9.uploadFiles ∧
    (Part004.globalCleanup gsC9).uploadFiles = [] ∧
    (Part004.globalCleanup gsC9).optFiles = [] ∧
    (Part004.globalCleanup gsC9).procs = [] := by decide

/-- Claim C9 (amended): the per-run handler cleanup touches only the
run's own uploaded file and its derived optimized path, leaving every
other run's files in place; but part_004 additionally wires a
process-wide `cleanup()` (global error handler, SIGTERM/SIGINT, server
error) that sweeps the entire shared uploads and optimized directories
and the global process set, releasing the resources of all concurrent
runs. -/
theorem c9_amended :
    (∀ (p q : String) (s : Part004.GState), ¬ q = p →
      (q ∈ (Part004.handlerCleanup p s).uploadFiles ↔ q ∈ s.uploadFiles)) ∧
    (∀ s : Part004.GState,
      (Part004.globalCleanup s).uploadFiles = [] ∧
      (Part004.globalCleanup s).optFiles = [] ∧
      (Part004.globalCleanup s).procs = []) := by
  constructor
  · intro p q s hqp
    simp [Part004.handlerCleanup, Part004.removeFile, List.mem_filter, hqp]
  · intro s
    exact ⟨sweepDir_eq_nil _, sweepDir_eq_nil _, sweepDir_eq_nil _⟩

/-- Claim C9 witness: the amended statement evaluated on the two-run
state `gsC9`: run 1's handler cleanup preserves run 2's uploaded file,
while the global sweep empties the shared uploads directory. -/
theorem c9_witness :
    ("run2-upload" ∈ (Part004.handlerCleanup "run1-upload" gsC9).uploadFiles ↔
      "run2-upload" ∈ gsC9.uploadFiles) ∧
    (Part004.globalCleanup gsC9).uploadFiles = [] :=
  ⟨c9_amended.1 "run1-upload" "run2-upload" gsC9 (by decide),
   (c9_amended.2 gsC9).1⟩

/-! Claim C10. -/

/-- Claim C10: the refinement helpers are total at their interface —
both the SDK-based `improveTranscription` of server.js and the
fetch-based one of part_004/part_006 are plain functions returning a
string (never throwing, their catch swallows everything), and whenever
the backend call fails (rejected promise / thrown SDK error) or responds
with a non-ok status, the returned string is the input transcript
unchanged. -/
theorem c10_refinement_total (e c t : String) :
    Server.improveTranscription (.error e) t = t ∧
    Part006.improveTranscription (.error e) t = t ∧
    Part006.improveTranscription (.ok (false, c)) t = t :=
  ⟨rfl, rfl, rfl⟩

end FarsiTranscriber
